import Mathlib

/-!
Shallow embedding of `src/dataloader.py` (Waifu2x data pipeline).

The embedding models the data pipeline at the level the spec talks about:
patch-grid planning (`ImageData.get_img_grids`), the degradation engine
(`ImageAugment`), index-addressed fetch (`ImageData.__getitem__`) and batch
collation (`ImageLoader.batch_collector`).  Decoded images are modelled by
their observable shape (width, height, channel count) plus a flag recording
whether the image went through the lossy JPEG re-encode, which is exactly the
information the claims quantify over.  Randomness (`random.sample`,
`random.choice`, `random.uniform`) is modelled by an explicit sampling
function parameter constrained by hypotheses, mirroring what the library
guarantees (a sample is a sub-permutation of its input of the requested
size).
-/

/-- A patch bounding box as produced by `ImageData.get_img_grids`:
the code appends the tuple
`(patch_size*i, patch_size*j, patch_size*(i+1), patch_size*(j+1))`
where `i` ranges over the height-derived count and `j` over the
width-derived count; the spec names these components
(top, left, bottom, right). -/
structure PatchBox where
  top : Nat
  left : Nat
  bottom : Nat
  right : Nat
deriving DecidableEq, Repr

/-- The full (uncapped) grid enumeration of `ImageData.get_img_grids`:
`count_w, count_h = img_w // patch_size, img_h // patch_size`, nested loops
`for i in range(count_h): for j in range(count_w):` with the source's guard
`patch_size * (j + 1) <= img_h and patch_size * (i + 1) <= img_w`. -/
def get_img_grids_full (patch_size img_w img_h : Nat) : List PatchBox :=
  (List.range (img_h / patch_size)).flatMap fun i =>
    (List.range (img_w / patch_size)).flatMap fun j =>
      if patch_size * (j + 1) ≤ img_h ∧ patch_size * (i + 1) ≤ img_w then
        [⟨patch_size * i, patch_size * j, patch_size * (i + 1), patch_size * (j + 1)⟩]
      else []

/-- `ImageData.get_img_grids`: the full grid, capped by
`random.sample(patch_box, max_path_per_img)` when it has more than
`max_path_per_img` boxes.  The ambient randomness of `random.sample` is
modelled by the explicit `sample` argument; theorems assume only what the
Python library guarantees about it (a sub-permutation of the given length). -/
def get_img_grids (patch_size max_patch_per_img img_w img_h : Nat)
    (sample : List PatchBox → Nat → List PatchBox) : List PatchBox :=
  if (get_img_grids_full patch_size img_w img_h).length > max_patch_per_img then
    sample (get_img_grids_full patch_size img_w img_h) max_patch_per_img
  else get_img_grids_full patch_size img_w img_h

/-- Two boxes overlap when the pixel regions `[top, bottom) × [left, right)`
intersect. -/
def overlaps (a b : PatchBox) : Prop :=
  max a.top b.top < min a.bottom b.bottom ∧ max a.left b.left < min a.right b.right

instance (a b : PatchBox) : Decidable (overlaps a b) := by
  unfold overlaps; infer_instance

/-- A decoded PIL image, modelled by its observable shape: `img.size` is
`(width, height)`, `channels` counts the bands of the current mode (3 for
RGB/YCbCr, 1 for a single split band), and `jpegEncoded` records whether the
image was produced by the lossy JPEG save/re-open round trip. -/
structure PILImage where
  width : Nat
  height : Nat
  channels : Nat
  jpegEncoded : Bool
deriving DecidableEq, Repr

/-- PIL `img.crop(box)` where the 4-tuple is interpreted positionally as
`(left, upper, right, lower)`; the code passes the grid tuple
`(ps*i, ps*j, ps*(i+1), ps*(j+1))`, i.e. our `(top, left, bottom, right)`,
so the crop width is `bottom - top` and the crop height is `right - left`. -/
def PILImage.crop (img : PILImage) (box : PatchBox) : PILImage :=
  ⟨box.bottom - box.top, box.right - box.left, img.channels, img.jpegEncoded⟩

/-- PIL `img.convert("RGB")`: three bands, shape unchanged. -/
def convertRGB (img : PILImage) : PILImage :=
  ⟨img.width, img.height, 3, img.jpegEncoded⟩

/-- `img.convert('YCbCr').split()` followed by keeping only the first (Y)
band, as in `lr_img, _, _ = patch[0].convert('YCbCr').split()`. -/
def ycbcrLuma (img : PILImage) : PILImage :=
  ⟨img.width, img.height, 1, img.jpegEncoded⟩

/-- The configuration state of `ImageAugment` after `__init__`:
`self.noise_level` is the two-element range list, `self.shrink_size` and
`self.down_sample_method` are stored as given. -/
structure ImageAugment where
  shrink_size : Nat
  noise_level : Nat × Nat
  down_sample_method : Option Nat
deriving DecidableEq, Repr

/-- `ImageAugment.__init__`: maps `noise_level` 0/1/2 to the ranges
`[0,0]`, `[5,25]`, `[25,50]` and raises `KeyError` on any other value.
`noise_level` is an arbitrary Python int, hence `Int`. -/
def ImageAugment.init (shrink_size : Nat) (noise_level : Int)
    (down_sample_method : Option Nat) : Except String ImageAugment :=
  if noise_level = 0 then .ok ⟨shrink_size, (0, 0), down_sample_method⟩
  else if noise_level = 1 then .ok ⟨shrink_size, (5, 25), down_sample_method⟩
  else if noise_level = 2 then .ok ⟨shrink_size, (25, 50), down_sample_method⟩
  else .error "Noise level should be either 0, 1, 2"

/-- `ImageAugment.shrink_img`: target dimensions are
`int(x / self.shrink_size)` for each of `hr_img.size`, i.e. truncating
division; `resize` yields an image of exactly the requested size with the
band count unchanged.  The resample filter (fixed, or drawn by
`random.choice` when `down_sample_method is None`) affects pixel values
only, never the shape, so it does not appear in the result. -/
def ImageAugment.shrink_img (aug : ImageAugment) (hr_img : PILImage) : PILImage :=
  ⟨hr_img.width / aug.shrink_size, hr_img.height / aug.shrink_size,
    hr_img.channels, hr_img.jpegEncoded⟩

/-- `ImageAugment.add_jpeg_noise`: save to an in-memory JPEG at a random
quality and re-open.  Shape and band count survive the round trip; the
image is now lossily re-encoded. -/
def ImageAugment.add_jpeg_noise (img : PILImage) : PILImage :=
  ⟨img.width, img.height, img.channels, true⟩

/-- `ImageAugment.process`: crop the source to the grid box, shrink, and
apply JPEG noise only when `self.noise_level[1] > 0`. -/
def ImageAugment.process (aug : ImageAugment) (hr_patch : PILImage)
    (grid : PatchBox) : PILImage × PILImage :=
  let hr := hr_patch.crop grid
  let lr := aug.shrink_img hr
  if 0 < aug.noise_level.2 then (ImageAugment.add_jpeg_noise lr, hr) else (lr, hr)

/-- `ImageAugment.up_sample`: resize to
`(shrink_size * width, shrink_size * height)`. -/
def ImageAugment.up_sample (aug : ImageAugment) (img : PILImage) : PILImage :=
  ⟨aug.shrink_size * img.width, aug.shrink_size * img.height,
    img.channels, img.jpegEncoded⟩

/-- Failure modes of `ImageData.__getitem__`: Python `IndexError` from
`self.patch_grids[index]` and the explicit `KeyError` of the color branch. -/
inductive FetchError where
  | indexError : FetchError
  | keyError : FetchError
deriving DecidableEq, Repr

/-- CPython list subscript semantics for `self.patch_grids[index]`:
a non-negative index reads directly, a negative index is offset by the
length, and anything still out of range raises `IndexError` (`none`). -/
def pyListGet (l : List α) (i : Int) : Option α :=
  if 0 ≤ i then l[i.toNat]?
  else if 0 ≤ (l.length : Int) + i then l[((l.length : Int) + i).toNat]?
  else none

/-- `ImageData.__getitem__`: index into `self.patch_grids` (Python list
semantics), then convert both members of the pair according to
`self.color_mod`, raising `KeyError` for any mode other than RGB/YCbCr. -/
def getitem (color_mod : String) (patch_grids : List (PILImage × PILImage))
    (index : Int) : Except FetchError (PILImage × PILImage) :=
  match pyListGet patch_grids index with
  | none => .error .indexError
  | some patch =>
    if color_mod = "RGB" then .ok (convertRGB patch.1, convertRGB patch.2)
    else if color_mod = "YCbCr" then .ok (ycbcrLuma patch.1, ycbcrLuma patch.2)
    else .error .keyError

/-- `ImageData.__init__` in the order of the source: construct the
`ImageAugment` first (line 34), and only then cut every image into patches
and degrade them (line 35).  An invalid noise level therefore surfaces as a
construction-time error before any patch is processed. -/
def ImageData.init (max_patch_per_img patch_size shrink_size : Nat)
    (noise_level : Int) (down_sample_method : Option Nat)
    (sample : List PatchBox → Nat → List PatchBox)
    (imgs : List PILImage) : Except String (List (PILImage × PILImage)) := do
  let aug ← ImageAugment.init shrink_size noise_level down_sample_method
  pure ((imgs.map fun img =>
    (get_img_grids patch_size max_patch_per_img img.width img.height sample).map
      (aug.process img)).flatten)

/-- The shape of a stacked batch tensor `(N, C, H, W)`. -/
structure Tensor4 where
  n : Nat
  c : Nat
  h : Nat
  w : Nat
deriving DecidableEq, Repr

/-- `torchvision.to_tensor`: channel-first `(C, H, W)` shape of an image. -/
def to_tensor (img : PILImage) : Nat × Nat × Nat :=
  (img.channels, img.height, img.width)

/-- `torch.stack(_, dim=0)` over a list of `(C, H, W)` tensors: succeeds
with shape `(N, C, H, W)` only when the list is non-empty and all shapes
agree (otherwise PyTorch raises). -/
def stack : List (Nat × Nat × Nat) → Option Tensor4
  | [] => none
  | s :: rest =>
    if rest.all (· = s) then some ⟨rest.length + 1, s.1, s.2.1, s.2.2⟩ else none

/-- `nn.ZeroPad2d(p)`: pads both spatial edges symmetrically by `p`. -/
def zeroPad2d (p : Nat) (t : Tensor4) : Tensor4 :=
  ⟨t.n, t.c, t.h + 2 * p, t.w + 2 * p⟩

/-- What `ImageLoader.batch_collector` returns: the low-resolution batch,
the optional upsampled guide batch (present when `self.up_sample` is not
None, in which case the code returns the pair `(lr_img, lr_img_up)`), and
the high-resolution batch. -/
structure CollateOut where
  lr : Tensor4
  lr_up : Option Tensor4
  hr : Tensor4
deriving DecidableEq, Repr

/-- `ImageLoader.batch_collector`: stack the low-resolution tensors, stack
the high-resolution tensors, zero-pad the low-resolution batch when
`self.pad_img` is truthy (non-zero), and optionally build the upsampled
guide batch.  CUDA placement changes device, not shape, and is omitted. -/
def batch_collector (aug : ImageAugment) (up_sample : Option Nat) (pad_img : Nat)
    (batch : List (PILImage × PILImage)) : Option CollateOut :=
  match stack (batch.map fun pr => to_tensor pr.1),
        stack (batch.map fun pr => to_tensor pr.2) with
  | some lr0, some hr =>
    let lr := if pad_img ≠ 0 then zeroPad2d pad_img lr0 else lr0
    match up_sample with
    | none => some ⟨lr, none, hr⟩
    | some _ =>
      match stack (batch.map fun pr => to_tensor (aug.up_sample pr.1)) with
      | some lr_up => some ⟨lr, some lr_up, hr⟩
      | none => none
  | _, _ => none

/-- Membership characterization of the full grid enumeration. -/
theorem mem_get_img_grids_full {ps w h : Nat} {b : PatchBox} :
    b ∈ get_img_grids_full ps w h ↔
      ∃ i, i < h / ps ∧ ∃ j, j < w / ps ∧
        (ps * (j + 1) ≤ h ∧ ps * (i + 1) ≤ w) ∧
        b = ⟨ps * i, ps * j, ps * (i + 1), ps * (j + 1)⟩ := by
  unfold get_img_grids_full
  simp only [List.mem_flatMap, List.mem_range]
  constructor
  · rintro ⟨i, hi, j, hj, hmem⟩
    refine ⟨i, hi, j, hj, ?_⟩
    split at hmem
    · next hcond => simp only [List.mem_singleton] at hmem; exact ⟨hcond, hmem⟩
    · exact absurd hmem (List.not_mem_nil _)
  · rintro ⟨i, hi, j, hj, hcond, rfl⟩
    exact ⟨i, hi, j, hj, by rw [if_pos hcond]; exact List.mem_singleton.mpr rfl⟩

/-- Every box of the (possibly capped) grid is a box of the full grid,
assuming only that the sampler returns a sub-permutation of its input. -/
theorem mem_of_mem_get_img_grids {ps mp w h : Nat}
    {sample : List PatchBox → Nat → List PatchBox}
    (hs : ∀ l k, List.Subperm (sample l k) l) {b : PatchBox}
    (hb : b ∈ get_img_grids ps mp w h sample) : b ∈ get_img_grids_full ps w h := by
  unfold get_img_grids at hb
  split at hb
  · exact (hs _ _).subset hb
  · exact hb

/-- Multiplying an index strictly below `d / ps` keeps the scaled successor
within `d`. -/
theorem scaled_succ_le {ps d i : Nat} (hi : i < d / ps) : ps * (i + 1) ≤ d :=
  calc ps * (i + 1) ≤ ps * (d / ps) := Nat.mul_le_mul (Nat.le_refl ps) hi
    _ = d / ps * ps := Nat.mul_comm ps (d / ps)
    _ ≤ d := Nat.div_mul_le_self d ps

/-- C1: for positive `patch_size` and `max_patch_per_img`, every box
returned by `ImageData.get_img_grids` lies fully within
`[0,width) × [0,height)`, each coordinate bounded against its matching
image dimension: the height-derived coordinates (top, bottom) against the
height and the width-derived coordinates (left, right) against the width. -/
theorem C1_grid_boxes_within_bounds (ps mp w h : Nat)
    (sample : List PatchBox → Nat → List PatchBox)
    (hps : 0 < ps) (_hmp : 0 < mp)
    (hs : ∀ l k, List.Subperm (sample l k) l) :
    ∀ b ∈ get_img_grids ps mp w h sample,
      b.bottom ≤ h ∧ b.right ≤ w ∧ b.top < h ∧ b.left < w := by
  intro b hb
  have hbf := mem_of_mem_get_img_grids hs hb
  rw [mem_get_img_grids_full] at hbf
  obtain ⟨i, hi, j, hj, hcond, rfl⟩ := hbf
  have hbot : ps * (i + 1) ≤ h := scaled_succ_le hi
  have hright : ps * (j + 1) ≤ w := scaled_succ_le hj
  have hi1 : ps * (i + 1) = ps * i + ps := Nat.mul_succ ps i
  have hj1 : ps * (j + 1) = ps * j + ps := Nat.mul_succ ps j
  refine ⟨hbot, hright, ?_, ?_⟩ <;> dsimp only <;> omega

/-- Witness for C1 at `patch_size = 2`, cap 3, a 4 × 4 image and the
take-based sampler. -/
theorem C1_grid_boxes_within_bounds_witness :
    (⟨0, 0, 2, 2⟩ : PatchBox).bottom ≤ 4 ∧ (⟨0, 0, 2, 2⟩ : PatchBox).right ≤ 4 ∧
    (⟨0, 0, 2, 2⟩ : PatchBox).top < 4 ∧ (⟨0, 0, 2, 2⟩ : PatchBox).left < 4 :=
  C1_grid_boxes_within_bounds 2 3 4 4 (fun l k => l.take k) (by decide) (by decide)
    (fun l k => (List.take_sublist k l).subperm) ⟨0, 0, 2, 2⟩ (by decide)

/-- C2 (code bug): on a 64 × 32 image with `patch_size = 32` and cap 10 the
swapped bound check `patch_size * (j + 1) <= img_h` discards the second
column, so `get_img_grids` returns 1 box while
`min(count_w * count_h, max_patch_per_img) = min(2 * 1, 10) = 2`. -/
theorem C2_swapped_check_undercounts :
    (get_img_grids 32 10 64 32 (fun l k => l.take k)).length = 1 ∧
    min ((64 / 32) * (32 / 32)) 10 = 2 := by decide

/-- Scaled intervals `[ps*a, ps*(a+1))` and `[ps*b, ps*(b+1))` intersect only
when the indices coincide. -/
theorem scaled_interval_eq {ps a b : Nat}
    (h : max (ps * a) (ps * b) < min (ps * (a + 1)) (ps * (b + 1))) : a = b := by
  rcases Nat.lt_trichotomy a b with hab | hab | hab
  · exfalso
    have h1 : ps * (a + 1) ≤ ps * b := Nat.mul_le_mul (Nat.le_refl ps) hab
    have h2 : ps * b ≤ max (ps * a) (ps * b) := Nat.le_max_right _ _
    have h3 : min (ps * (a + 1)) (ps * (b + 1)) ≤ ps * (a + 1) := Nat.min_le_left _ _
    omega
  · exact hab
  · exfalso
    have h1 : ps * (b + 1) ≤ ps * a := Nat.mul_le_mul (Nat.le_refl ps) hab
    have h2 : ps * a ≤ max (ps * a) (ps * b) := Nat.le_max_left _ _
    have h3 : min (ps * (a + 1)) (ps * (b + 1)) ≤ ps * (b + 1) := Nat.min_le_right _ _
    omega

/-- C9: every box of a grid returned by `ImageData.get_img_grids` — the full
tiling as well as a capped grid drawn by the sampler — is an exact
`patch_size` square, and two distinct boxes of the same grid never
overlap. -/
theorem C9_grid_square_and_disjoint (ps mp w h : Nat)
    (sample : List PatchBox → Nat → List PatchBox)
    (hps : 0 < ps)
    (hs : ∀ l k, List.Subperm (sample l k) l) :
    (∀ b ∈ get_img_grids ps mp w h sample,
      b.bottom - b.top = ps ∧ b.right - b.left = ps) ∧
    (∀ b1 ∈ get_img_grids ps mp w h sample,
      ∀ b2 ∈ get_img_grids ps mp w h sample, b1 ≠ b2 → ¬ overlaps b1 b2) := by
  constructor
  · intro b hb
    obtain ⟨i, hi, j, hj, hcond, rfl⟩ :=
      mem_get_img_grids_full.mp (mem_of_mem_get_img_grids hs hb)
    have hi1 : ps * (i + 1) = ps * i + ps := Nat.mul_succ ps i
    have hj1 : ps * (j + 1) = ps * j + ps := Nat.mul_succ ps j
    constructor <;> dsimp only <;> omega
  · intro b1 hb1 b2 hb2 hne hov
    obtain ⟨i1, hi1, j1, hj1, hcond1, rfl⟩ :=
      mem_get_img_grids_full.mp (mem_of_mem_get_img_grids hs hb1)
    obtain ⟨i2, hi2, j2, hj2, hcond2, rfl⟩ :=
      mem_get_img_grids_full.mp (mem_of_mem_get_img_grids hs hb2)
    obtain ⟨hovi, hovj⟩ := hov
    dsimp only at hovi hovj
    have : i1 = i2 := scaled_interval_eq hovi
    have : j1 = j2 := scaled_interval_eq hovj
    apply hne
    subst i1 j1
    rfl

/-- Witness for C9 at `patch_size = 2`, cap 3, a 4 × 4 image and the
take-based sampler: the first two retained boxes are 2 × 2 squares and do
not overlap. -/
theorem C9_grid_square_and_disjoint_witness :
    ((⟨0, 0, 2, 2⟩ : PatchBox).bottom - (⟨0, 0, 2, 2⟩ : PatchBox).top = 2 ∧
      (⟨0, 0, 2, 2⟩ : PatchBox).right - (⟨0, 0, 2, 2⟩ : PatchBox).left = 2) ∧
    ¬ overlaps ⟨0, 0, 2, 2⟩ ⟨0, 2, 2, 4⟩ :=
  have h9 := C9_grid_square_and_disjoint 2 3 4 4 (fun l k => l.take k) (by decide)
    (fun l k => (List.take_sublist k l).subperm)
  ⟨h9.1 ⟨0, 0, 2, 2⟩ (by decide),
    h9.2 ⟨0, 0, 2, 2⟩ (by decide) ⟨0, 2, 2, 4⟩ (by decide) (by decide)⟩

/-- C3 counterexample: with `shrink_size = 2` a 5 × 5 image shrinks to
2 × 2 and upsamples back to 4 × 4 — `up_sample` does not restore the
original width 5. -/
theorem C3_round_trip_counterexample :
    (ImageAugment.up_sample ⟨2, (0, 0), none⟩
      (ImageAugment.shrink_img ⟨2, (0, 0), none⟩ ⟨5, 5, 3, false⟩)).width ≠ 5 := by
  decide

/-- C3 (amended): `up_sample` restores the original dimensions of
`shrink_img` exactly when `shrink_size` divides both of them — in
particular for every grid patch whose `patch_size` is a multiple of
`shrink_size`. -/
theorem C3_up_sample_inverts_shrink (aug : ImageAugment) (img : PILImage)
    (hw : aug.shrink_size ∣ img.width) (hh : aug.shrink_size ∣ img.height) :
    aug.up_sample (aug.shrink_img img) = img := by
  cases img with
  | mk w h c j =>
    simp only [ImageAugment.up_sample, ImageAugment.shrink_img]
    exact congrArg₂ (fun a b => PILImage.mk a b c j)
      (Nat.mul_div_cancel' hw) (Nat.mul_div_cancel' hh)

/-- Witness for C3 (amended) at `shrink_size = 2` on a 6 × 4 image. -/
theorem C3_up_sample_inverts_shrink_witness :
    ImageAugment.up_sample ⟨2, (0, 0), none⟩
      (ImageAugment.shrink_img ⟨2, (0, 0), none⟩ ⟨6, 4, 3, false⟩) = ⟨6, 4, 3, false⟩ :=
  C3_up_sample_inverts_shrink ⟨2, (0, 0), none⟩ ⟨6, 4, 3, false⟩ (by decide) (by decide)

/-- Python list subscripting fails exactly outside `[-len, len)`. -/
theorem pyListGet_eq_none_of_out {α : Type} (l : List α) (i : Int)
    (h : i < -(l.length : Int) ∨ (l.length : Int) ≤ i) : pyListGet l i = none := by
  unfold pyListGet
  rcases h with h | h
  · rw [if_neg (by omega), if_neg (by omega)]
  · rw [if_pos (by omega)]
    exact List.getElem?_eq_none (by omega)

/-- Python list subscripting succeeds everywhere inside `[-len, len)`. -/
theorem pyListGet_isSome_of_in {α : Type} (l : List α) (i : Int)
    (h1 : -(l.length : Int) ≤ i) (h2 : i < (l.length : Int)) :
    (pyListGet l i).isSome := by
  unfold pyListGet
  by_cases h0 : 0 ≤ i
  · rw [if_pos h0, List.getElem?_eq_getElem (by omega)]
    rfl
  · rw [if_neg h0, if_pos (by omega), List.getElem?_eq_getElem (by omega)]
    rfl

/-- Reduction of `getitem` once the list subscript has succeeded. -/
theorem getitem_of_some {cm : String} {l : List (PILImage × PILImage)} {i : Int}
    {p : PILImage × PILImage} (hp : pyListGet l i = some p) :
    getitem cm l i =
      if cm = "RGB" then Except.ok (convertRGB p.1, convertRGB p.2)
      else if cm = "YCbCr" then Except.ok (ycbcrLuma p.1, ycbcrLuma p.2)
      else Except.error FetchError.keyError := by
  unfold getitem
  rw [hp]

/-- C4 counterexample: on a one-element corpus, index `-1` does not fail —
CPython list subscripting wraps it to the last element, and the fetch
returns the pair. -/
theorem C4_negative_index_counterexample :
    getitem "RGB" [(⟨8, 8, 3, false⟩, ⟨16, 16, 3, false⟩)] (-1) =
      Except.ok (⟨8, 8, 3, false⟩, ⟨16, 16, 3, false⟩) := by rfl

/-- C4 (amended): `ImageData.__getitem__` raises `IndexError` exactly for
indices outside `[-length, length)`; inside that range it never fails with
`IndexError` — negative indices address elements from the end, following
Python list semantics. -/
theorem C4_index_error_iff (cm : String) (l : List (PILImage × PILImage)) (i : Int) :
    getitem cm l i = Except.error FetchError.indexError ↔
      i < -(l.length : Int) ∨ (l.length : Int) ≤ i := by
  constructor
  · intro hfail
    by_contra hin
    push_neg at hin
    obtain ⟨p, hp⟩ := Option.isSome_iff_exists.mp
      (pyListGet_isSome_of_in l i (by omega) (by omega))
    rw [getitem_of_some hp] at hfail
    by_cases hrgb : cm = "RGB"
    · rw [if_pos hrgb] at hfail; exact Except.noConfusion hfail
    · rw [if_neg hrgb] at hfail
      by_cases hycc : cm = "YCbCr"
      · rw [if_pos hycc] at hfail; exact Except.noConfusion hfail
      · rw [if_neg hycc] at hfail
        exact FetchError.noConfusion (Except.error.inj hfail)
  · intro hout
    unfold getitem
    rw [pyListGet_eq_none_of_out l i hout]

/-- Witness for C4 (amended): index 5 on a one-element corpus fails. -/
theorem C4_index_error_iff_witness :
    getitem "RGB" [(⟨8, 8, 3, false⟩, ⟨16, 16, 3, false⟩)] 5 =
      Except.error FetchError.indexError :=
  (C4_index_error_iff "RGB" [(⟨8, 8, 3, false⟩, ⟨16, 16, 3, false⟩)] 5).mpr (by decide)

/-- C5: for an in-range index, fetching in `YCbCr` mode yields a
single-channel pair (luminance only), fetching in `RGB` mode yields a
3-channel pair, and any other color mode fails with the `KeyError` of the
color branch. -/
theorem C5_color_mod_channels (cm : String) (l : List (PILImage × PILImage)) (i : Int)
    (h0 : 0 ≤ i) (h1 : i < (l.length : Int)) :
    ((getitem "YCbCr" l i).toOption.map fun p => (p.1.channels, p.2.channels))
      = some (1, 1) ∧
    ((getitem "RGB" l i).toOption.map fun p => (p.1.channels, p.2.channels))
      = some (3, 3) ∧
    (cm ≠ "RGB" → cm ≠ "YCbCr" → getitem cm l i = Except.error FetchError.keyError) := by
  obtain ⟨p, hp⟩ := Option.isSome_iff_exists.mp
    (pyListGet_isSome_of_in l i (by omega) h1)
  refine ⟨?_, ?_, ?_⟩
  · rw [getitem_of_some hp]
    rfl
  · rw [getitem_of_some hp]
    rfl
  · intro hrgb hycc
    rw [getitem_of_some hp, if_neg hrgb, if_neg hycc]

/-- Witness for C5 on a one-element corpus at index 0, with `BGR` as the
rejected color mode. -/
theorem C5_color_mod_channels_witness :
    ((getitem "YCbCr" [(⟨8, 8, 3, false⟩, ⟨16, 16, 3, false⟩)] 0).toOption.map
      fun p => (p.1.channels, p.2.channels)) = some (1, 1) ∧
    ((getitem "RGB" [(⟨8, 8, 3, false⟩, ⟨16, 16, 3, false⟩)] 0).toOption.map
      fun p => (p.1.channels, p.2.channels)) = some (3, 3) ∧
    getitem "BGR" [(⟨8, 8, 3, false⟩, ⟨16, 16, 3, false⟩)] 0 =
      Except.error FetchError.keyError :=
  have h5 := C5_color_mod_channels "BGR" [(⟨8, 8, 3, false⟩, ⟨16, 16, 3, false⟩)] 0
    (by decide) (by decide)
  ⟨h5.1, h5.2.1, h5.2.2 (by decide) (by decide)⟩

/-- C6: with `noise_level = 0` the configured range is `[0, 0]`, so
`ImageAugment.process` returns exactly the resized crop — each
low-resolution dimension is the floor of the corresponding cropped
dimension divided by `shrink_size`, and the lossy JPEG re-encode branch is
never taken (the low-resolution member of the pair carries no JPEG
encoding). -/
theorem C6_noise_zero_process (s : Nat) (dm : Option Nat) (aug : ImageAugment)
    (h : ImageAugment.init s 0 dm = Except.ok aug)
    (img : PILImage) (grid : PatchBox) :
    aug.process img grid = (aug.shrink_img (img.crop grid), img.crop grid) ∧
    (aug.process img grid).1.width = (img.crop grid).width / s ∧
    (aug.process img grid).1.height = (img.crop grid).height / s ∧
    (aug.process img grid).1.jpegEncoded = img.jpegEncoded := by
  have haug : aug = ⟨s, (0, 0), dm⟩ := by
    unfold ImageAugment.init at h
    rw [if_pos rfl] at h
    exact (Except.ok.inj h).symm
  subst haug
  refine ⟨rfl, rfl, rfl, rfl⟩

/-- Witness for C6: `shrink_size = 2`, a 64 × 64 source and the grid box
`(0, 0, 32, 32)` give a 16 × 16 low-resolution patch with no JPEG step. -/
theorem C6_noise_zero_process_witness :
    ImageAugment.process ⟨2, (0, 0), none⟩ ⟨64, 64, 3, false⟩ ⟨0, 0, 32, 32⟩ =
      (ImageAugment.shrink_img ⟨2, (0, 0), none⟩
        (PILImage.crop ⟨64, 64, 3, false⟩ ⟨0, 0, 32, 32⟩),
       PILImage.crop ⟨64, 64, 3, false⟩ ⟨0, 0, 32, 32⟩) ∧
    (ImageAugment.process ⟨2, (0, 0), none⟩ ⟨64, 64, 3, false⟩ ⟨0, 0, 32, 32⟩).1.width =
      (PILImage.crop ⟨64, 64, 3, false⟩ ⟨0, 0, 32, 32⟩).width / 2 ∧
    (ImageAugment.process ⟨2, (0, 0), none⟩ ⟨64, 64, 3, false⟩ ⟨0, 0, 32, 32⟩).1.height =
      (PILImage.crop ⟨64, 64, 3, false⟩ ⟨0, 0, 32, 32⟩).height / 2 ∧
    (ImageAugment.process ⟨2, (0, 0), none⟩ ⟨64, 64, 3, false⟩ ⟨0, 0, 32, 32⟩).1.jpegEncoded =
      false :=
  C6_noise_zero_process 2 none ⟨2, (0, 0), none⟩ rfl ⟨64, 64, 3, false⟩ ⟨0, 0, 32, 32⟩

/-- C7: for a positive pad amount, `ImageLoader.batch_collector` produces
the padded-by-`2p` low-resolution batch of the unpadded run, while the
high-resolution batch and the optional upsampled guide batch are
unchanged (and failure happens in exactly the same cases). -/
theorem C7_pad_only_lr (aug : ImageAugment) (up_sample : Option Nat) (p : Nat)
    (batch : List (PILImage × PILImage)) (hp : 0 < p) :
    batch_collector aug up_sample p batch =
      (batch_collector aug up_sample 0 batch).map fun r =>
        ⟨zeroPad2d p r.lr, r.lr_up, r.hr⟩ := by
  have hpne : p ≠ 0 := Nat.pos_iff_ne_zero.mp hp
  unfold batch_collector
  cases stack (batch.map fun pr => to_tensor pr.1) with
  | none => rfl
  | some lr0 =>
    cases stack (batch.map fun pr => to_tensor pr.2) with
    | none => rfl
    | some hr =>
      simp only [hpne, ne_eq, not_false_eq_true, if_true, not_true, if_false,
        ite_true, ite_false]
      cases up_sample with
      | none => simp
      | some f =>
        cases stack (batch.map fun pr => to_tensor (aug.up_sample pr.1)) with
        | none => rfl
        | some lr_up => simp

/-- Witness for C7: a singleton batch, `pad_img = 1`, no guide batch. -/
theorem C7_pad_only_lr_witness :
    batch_collector ⟨2, (0, 0), none⟩ none 1 [(⟨8, 8, 3, false⟩, ⟨16, 16, 3, false⟩)] =
      (batch_collector ⟨2, (0, 0), none⟩ none 0
        [(⟨8, 8, 3, false⟩, ⟨16, 16, 3, false⟩)]).map fun r =>
          ⟨zeroPad2d 1 r.lr, r.lr_up, r.hr⟩ :=
  C7_pad_only_lr ⟨2, (0, 0), none⟩ none 1 [(⟨8, 8, 3, false⟩, ⟨16, 16, 3, false⟩)]
    (by decide)

/-- C8: `ImageAugment.__init__` maps noise level 0 to `[0,0]`, 1 to
`[5,25]`, 2 to `[25,50]`, and fails with the `KeyError` exactly on every
other value; since `ImageData.__init__` builds the augmenter before cutting
any image into patches, the same invalid level makes dataset construction
fail before any patch is processed. -/
theorem C8_noise_level_policy (s : Nat) (dm : Option Nat) (nl : Int)
    (mp ps : Nat) (sample : List PatchBox → Nat → List PatchBox)
    (imgs : List PILImage) :
    (nl = 0 → ImageAugment.init s nl dm = Except.ok ⟨s, (0, 0), dm⟩) ∧
    (nl = 1 → ImageAugment.init s nl dm = Except.ok ⟨s, (5, 25), dm⟩) ∧
    (nl = 2 → ImageAugment.init s nl dm = Except.ok ⟨s, (25, 50), dm⟩) ∧
    (nl ≠ 0 → nl ≠ 1 → nl ≠ 2 →
      ImageAugment.init s nl dm =
        Except.error "Noise level should be either 0, 1, 2" ∧
      ImageData.init mp ps s nl dm sample imgs =
        Except.error "Noise level should be either 0, 1, 2") := by
  refine ⟨?_, ?_, ?_, ?_⟩
  · intro h0
    subst h0
    rfl
  · intro h1
    subst h1
    rfl
  · intro h2
    subst h2
    rfl
  · intro h0 h1 h2
    have herr : ImageAugment.init s nl dm =
        Except.error "Noise level should be either 0, 1, 2" := by
      unfold ImageAugment.init
      rw [if_neg h0, if_neg h1, if_neg h2]
    refine ⟨herr, ?_⟩
    unfold ImageData.init
    rw [herr]
    rfl

/-- Witness for C8 at the invalid noise level 3 (plus the valid levels'
conjuncts at levels 0, 1, 2). -/
theorem C8_noise_level_policy_witness :
    ImageAugment.init 2 0 none = Except.ok ⟨2, (0, 0), none⟩ ∧
    ImageAugment.init 2 1 none = Except.ok ⟨2, (5, 25), none⟩ ∧
    ImageAugment.init 2 2 none = Except.ok ⟨2, (25, 50), none⟩ ∧
    ImageAugment.init 2 3 none =
      Except.error "Noise level should be either 0, 1, 2" ∧
    ImageData.init 10 32 2 3 none (fun l k => l.take k) [⟨64, 64, 3, false⟩] =
      Except.error "Noise level should be either 0, 1, 2" :=
  have hbad := (C8_noise_level_policy 2 none 3 10 32 (fun l k => l.take k)
    [⟨64, 64, 3, false⟩]).2.2.2 (by decide) (by decide) (by decide)
  ⟨(C8_noise_level_policy 2 none 0 10 32 (fun l k => l.take k)
      [⟨64, 64, 3, false⟩]).1 rfl,
    (C8_noise_level_policy 2 none 1 10 32 (fun l k => l.take k)
      [⟨64, 64, 3, false⟩]).2.1 rfl,
    (C8_noise_level_policy 2 none 2 10 32 (fun l k => l.take k)
      [⟨64, 64, 3, false⟩]).2.2.1 rfl,
    hbad.1, hbad.2⟩

/-- C10: when a dimension of the high-resolution patch is strictly smaller
than `shrink_size`, the truncating division `int(x / shrink_size)` makes
`ImageAugment.shrink_img` request size 0 on that axis; the function is
total — no minimum of one pixel is enforced and no error is raised. -/
theorem C10_degenerate_shrink_to_zero (aug : ImageAugment) (img : PILImage) :
    (img.width < aug.shrink_size → (aug.shrink_img img).width = 0) ∧
    (img.height < aug.shrink_size → (aug.shrink_img img).height = 0) :=
  ⟨fun hw => Nat.div_eq_of_lt hw, fun hh => Nat.div_eq_of_lt hh⟩

/-- Witness for C10: a 3 × 2 patch with `shrink_size = 4` shrinks to
0 × 0. -/
theorem C10_degenerate_shrink_to_zero_witness :
    (ImageAugment.shrink_img ⟨4, (0, 0), none⟩ ⟨3, 2, 3, false⟩).width = 0 ∧
    (ImageAugment.shrink_img ⟨4, (0, 0), none⟩ ⟨3, 2, 3, false⟩).height = 0 :=
  ⟨(C10_degenerate_shrink_to_zero ⟨4, (0, 0), none⟩ ⟨3, 2, 3, false⟩).1 (by decide),
    (C10_degenerate_shrink_to_zero ⟨4, (0, 0), none⟩ ⟨3, 2, 3, false⟩).2 (by decide)⟩

